import Mathlib

/-!
Verification of `server/config/config.go` (package `config`) of
fiqrioemry/system_management_app.

The environment is modelled as a total map from variable names to string
values; Go reports an unset variable as the empty string, so "" stands for
both unset and set-to-empty, exactly as `os.Getenv` does.

Durations are modelled as `Int` nanosecond counts (Go `time.Duration` is an
int64 nanosecond count).  The Go standard-library primitives used by the
config package (`strings.TrimSpace`, `strings.SplitSeq`, `strconv.Atoi`,
`strconv.ParseInt`, `time.ParseDuration`) are not part of the repository;
they are modelled below from their documented semantics, mirroring the Go
sources of the standard library.
-/

/-- The process environment as seen through `os.Getenv`: unset variables
read as the empty string. -/
def Env : Type := String → String

/-- ASCII decimal digit test, as used by the Go parsing primitives. -/
def isDigitChar (c : Char) : Bool := '0' ≤ c && c ≤ '9'

/-- Model of `unicode.IsSpace`: the Unicode White_Space property
(ASCII space, TAB, LF, VT, FF, CR, NEL, NBSP and the higher space
code points). -/
def isSpaceRune (c : Char) : Bool :=
  c == ' ' || c == '\t' || c == '\n' || c.toNat == 11 || c.toNat == 12 ||
  c == '\r' || c.toNat == 0x85 || c.toNat == 0xA0 || c.toNat == 0x1680 ||
  (0x2000 ≤ c.toNat && c.toNat ≤ 0x200A) ||
  c.toNat == 0x2028 || c.toNat == 0x2029 || c.toNat == 0x202F ||
  c.toNat == 0x205F || c.toNat == 0x3000

/-- Model of `strings.TrimSpace`: drop leading and trailing White_Space
runes. -/
def TrimSpace (s : String) : String :=
  String.mk (((s.data.dropWhile isSpaceRune).reverse.dropWhile isSpaceRune).reverse)

/-- Model of `strings.SplitSeq(value, ",")` (same substrings as
`strings.Split`): split a character list at every comma; a comma cannot
occur inside a multi-byte UTF-8 sequence, so the rune-level split agrees
with the byte-level one. -/
def splitComma : List Char → List (List Char)
  | [] => [[]]
  | c :: rest =>
    if c = ',' then [] :: splitComma rest
    else
      match splitComma rest with
      | h :: t => (c :: h) :: t
      | [] => [[c]]

/-- Model of `strconv.ParseInt(s, 10, 64)` (and of `strconv.Atoi` on a
64-bit platform): an optional sign followed by at least one ASCII decimal
digit, with the result required to fit in int64.  Go detects overflow
incrementally with a cutoff, but the accepted set is exactly the strings
whose value lies in [-2^63, 2^63-1]; every error path makes the caller
fall back to its default, so errors are collapsed to `none`. -/
def ParseInt64 (str : String) : Option Int :=
  match str.data with
  | [] => none
  | c :: rest =>
    let signDigits : Bool × List Char :=
      if c = '-' then (true, rest)
      else if c = '+' then (false, rest)
      else (false, c :: rest)
    let neg := signDigits.1
    let digits := signDigits.2
    if digits.isEmpty || !(digits.all isDigitChar) then none
    else
      let n : Nat := digits.foldl (fun a ch => a * 10 + (ch.toNat - 48)) 0
      if neg then
        if n ≤ 2 ^ 63 then some (-(n : Int)) else none
      else
        if n ≤ 2 ^ 63 - 1 then some (n : Int) else none

/-- Model of `strconv.Atoi`: identical in semantics to
`ParseInt(s, 10, 0)` with a 64-bit int. -/
def Atoi (s : String) : Option Int := ParseInt64 s

/-- Model of the `leadingInt` helper of `time.ParseDuration`: consume
leading decimal digits, failing (like Go, with `errLeadingInt`) once the
accumulator would pass 2^63. -/
def leadingInt : List Char → Nat → Option (Nat × List Char)
  | [], x => some (x, [])
  | c :: rest, x =>
    if isDigitChar c then
      if x > 2 ^ 63 / 10 then none
      else
        let y := x * 10 + (c.toNat - 48)
        if y > 2 ^ 63 then none
        else leadingInt rest y
    else some (x, c :: rest)

/-- Model of the `leadingFraction` helper of `time.ParseDuration`:
consume the digits after the decimal point, keeping value and scale; on
overflow further digits are consumed but ignored. -/
def leadingFraction : List Char → Nat → Nat → Bool → Nat × Nat × List Char
  | [], x, scale, _ => (x, scale, [])
  | c :: rest, x, scale, overflow =>
    if isDigitChar c then
      if overflow then leadingFraction rest x scale true
      else if x > (2 ^ 63 - 1) / 10 then leadingFraction rest x scale true
      else
        let y := x * 10 + (c.toNat - 48)
        if y > 2 ^ 63 then leadingFraction rest x scale true
        else leadingFraction rest y (scale * 10) false
    else (x, scale, c :: rest)

/-- The unit table of `time.ParseDuration`, in nanoseconds. -/
def unitMap (u : List Char) : Option Nat :=
  if u = ['n', 's'] then some 1
  else if u = ['u', 's'] then some 1000
  else if u = ['µ', 's'] then some 1000
  else if u = ['μ', 's'] then some 1000
  else if u = ['m', 's'] then some 1000000
  else if u = ['s'] then some 1000000000
  else if u = ['m'] then some 60000000000
  else if u = ['h'] then some 3600000000000
  else none

/-- The main loop of `time.ParseDuration`: repeatedly consume
`[0-9]*(\.[0-9]*)?unit`, accumulating nanoseconds in `d` with the same
overflow checks as Go.  Go scales the fractional part through float64;
here the scaling `f * unit / scale` is exact, which agrees with Go on all
fractions whose contribution is exactly representable.  Each pass consumes
at least one character, so fuel `length + 1` never runs out. -/
def durationLoop : Nat → List Char → Nat → Option Nat
  | 0, _, _ => none
  | fuel + 1, s, d =>
    match s with
    | [] => some d
    | c :: _ =>
      if !(c == '.' || isDigitChar c) then none
      else
        match leadingInt s 0 with
        | none => none
        | some (v, s1) =>
          let pre : Bool := s1.length != s.length
          let fracRes : Nat × Nat × List Char × Bool :=
            match s1 with
            | '.' :: s1x =>
              match leadingFraction s1x 0 1 false with
              | (f, scale, s2) => (f, scale, s2, s2.length != s1x.length)
            | _ => (0, 1, s1, false)
          match fracRes with
          | (f, scale, s2, post) =>
            if !pre && !post then none
            else
              let u := s2.takeWhile (fun ch => !(ch == '.' || isDigitChar ch))
              let s3 := s2.drop u.length
              if u.isEmpty then none
              else
                match unitMap u with
                | none => none
                | some unit =>
                  if v > 2 ^ 63 / unit then none
                  else
                    let v1 := v * unit
                    if f > 0 then
                      let v2 := v1 + f * unit / scale
                      if v2 > 2 ^ 63 then none
                      else
                        let d2 := d + v2
                        if d2 > 2 ^ 63 then none
                        else durationLoop fuel s3 d2
                    else
                      let d2 := d + v1
                      if d2 > 2 ^ 63 then none
                      else durationLoop fuel s3 d2

/-- Model of `time.ParseDuration`: optional sign, the special case "0",
then the unit loop; the result is a nanosecond count.  `none` stands for
any Go parse error. -/
def ParseDuration (str : String) : Option Int :=
  let s0 := str.data
  let signRest : Bool × List Char :=
    match s0 with
    | '-' :: rest => (true, rest)
    | '+' :: rest => (false, rest)
    | _ => (false, s0)
  let neg := signRest.1
  let s1 := signRest.2
  if s1 = ['0'] then some 0
  else if s1 = [] then none
  else
    match durationLoop (s1.length + 1) s1 0 with
    | none => none
    | some d =>
      if neg then some (-(d : Int))
      else if d > 2 ^ 63 - 1 then none
      else some (d : Int)

/-- `getEnvOrDefault` (config.go lines 150-155): the raw value when
non-empty, the default otherwise. -/
def getEnvOrDefault (env : Env) (key defaultValue : String) : String :=
  let value := env key
  if value ≠ "" then value else defaultValue

/-- `getEnvAsInt` (config.go lines 157-164): `strconv.Atoi` on a
non-empty value, the default on empty or parse error. -/
def getEnvAsInt (env : Env) (key : String) (defaultValue : Int) : Int :=
  let value := env key
  if value ≠ "" then
    match Atoi value with
    | some parsed => parsed
    | none => defaultValue
  else defaultValue

/-- `getEnvAsInt64` (config.go lines 166-173): `strconv.ParseInt(v,10,64)`
on a non-empty value, the default on empty or parse error. -/
def getEnvAsInt64 (env : Env) (key : String) (defaultValue : Int) : Int :=
  let value := env key
  if value ≠ "" then
    match ParseInt64 value with
    | some parsed => parsed
    | none => defaultValue
  else defaultValue

/-- `getEnvAsDuration` (config.go lines 175-187): parse the value (or, if
it is empty, the default string); on failure parse the default string,
and a failing default yields the Go zero value of the discarded-error
parse, 0. -/
def getEnvAsDuration (env : Env) (key defaultValue : String) : Int :=
  let value0 := env key
  let value := if value0 = "" then defaultValue else value0
  match ParseDuration value with
  | some duration => duration
  | none => (ParseDuration defaultValue).getD 0

/-- `getEnvAsStringSlice` (config.go lines 189-203): the default on an
empty raw value, otherwise split on commas and append each non-empty
trimmed item to an initially empty result. -/
def getEnvAsStringSlice (env : Env) (key : String) (defaultValue : List String) : List String :=
  let value := env key
  if value = "" then defaultValue
  else
    (splitComma value.data).foldl
      (fun result item =>
        if TrimSpace (String.mk item) ≠ "" then result ++ [TrimSpace (String.mk item)]
        else result) []

/-- The `Config` struct (config.go lines 12-71).  `RateLimitDuration` is a
nanosecond count; `MaxFileSize` is, in the snapshot `LoadConfig` leaves
behind, the per-category map assigned at lines 140-144 (the int64 read at
line 100 is overwritten before the snapshot is used), modelled as an
association list in assignment order.  `AllowedImageTypes`,
`AllowedVideoTypes` and `AllowedDocumentTypes` are the fields assigned at
lines 136-138. -/
structure Config where
  ServerPort : String
  ServerHost : String
  ApiKeys : String
  AllowedOrigins : List String
  RateLimitAttempts : Int
  RateLimitDuration : Int
  MaxFileSize : List (String × Int)
  SkippedApiEndpoints : List String
  TrustedProxies : List String
  CookieDomain : String
  DatabaseRootURL : String
  DatabaseName : String
  DatabaseURL : String
  RedisAddress : String
  RedisPassword : String
  AccessTokenSecret : String
  RefreshTokenSecret : String
  SMTPHost : String
  SMTPPort : Int
  SMTPEmail : String
  SMTPPassword : String
  AppName : String
  AppEnv : String
  FrontendURL : String
  CloudName : String
  CloudSecret : String
  CloudApiKey : String
  CloudFolder : String
  GoogleClientID : String
  GoogleClientSecret : String
  GoogleRedirectURL : String
  FrontendRedirectURL : String
  StripeWebhookSecret : String
  StripeCancelUrlDev : String
  StripeSuccessUrlDev : String
  StripeCancelUrlProd : String
  StripeSuccessUrlProd : String
  StripeSecretKey : String
  StripePublishableKey : String
  AllowedImageTypes : List String
  AllowedVideoTypes : List String
  AllowedDocumentTypes : List String
  deriving Repr, DecidableEq, Inhabited

/-- The snapshot `LoadConfig` produces from a given environment: every
field written exactly as config.go lines 76-144 computes it.  Closed form
of `LoadConfig` below. -/
def loadedConfig (env : Env) : Config where
  ServerPort := getEnvOrDefault env "PORT" "8080"
  ServerHost := getEnvOrDefault env "HOST" "localhost"
  GoogleClientID := getEnvOrDefault env "GOOGLE_CLIENT_ID" "your-google-client-id"
  GoogleClientSecret := getEnvOrDefault env "GOOGLE_CLIENT_SECRET" "your-google-client-secret"
  GoogleRedirectURL := getEnvOrDefault env "GOOGLE_REDIRECT_URL" "http://localhost:5005/api/v1/users/google/callback"
  FrontendRedirectURL := getEnvOrDefault env "FRONTEND_REDIRECT_URL" "http://localhost:5173"
  StripeWebhookSecret := getEnvOrDefault env "STRIPE_WEBHOOK_SECRET" "your-stripe-webhook-secret"
  StripeCancelUrlDev := getEnvOrDefault env "STRIPE_CANCEL_URL_DEV" "http://localhost:5173/checkout/cancel"
  StripeSuccessUrlDev := getEnvOrDefault env "STRIPE_SUCCESS_URL_DEV" "http://localhost:5173/checkout/success"
  StripeCancelUrlProd := getEnvOrDefault env "STRIPE_CANCEL_URL_PROD" "https://your-production-url/checkout/cancel"
  StripeSuccessUrlProd := getEnvOrDefault env "STRIPE_SUCCESS_URL_PROD" "https://your-production-url/checkout/success"
  StripeSecretKey := getEnvOrDefault env "STRIPE_SECRET_KEY" "your-stripe-secret-key"
  StripePublishableKey := getEnvOrDefault env "STRIPE_PUBLISHABLE_KEY" "your-stripe-publishable-key"
  CookieDomain := getEnvOrDefault env "COOKIE_DOMAIN" "localhost"
  ApiKeys := getEnvOrDefault env "API_KEY" "your-api-keys"
  RateLimitAttempts := getEnvAsInt env "RATE_LIMIT_ATTEMPTS" 100
  RateLimitDuration := getEnvAsDuration env "RATE_LIMIT_DURATION" "60s"
  TrustedProxies := getEnvAsStringSlice env "TRUSTED_PROXIES" ["localhost"]
  SkippedApiEndpoints := getEnvAsStringSlice env "SKIPPED_API_ENDPOINTS" ["/health"]
  AllowedOrigins := getEnvAsStringSlice env "ALLOWED_ORIGINS" ["http://localhost:3000"]
  DatabaseRootURL := getEnvOrDefault env "DB_ROOT_URL" "your-db-root-url"
  DatabaseName := getEnvOrDefault env "DB_NAME" "your-db-name"
  DatabaseURL := getEnvOrDefault env "DB_URL" "your-db-url"
  RedisAddress := getEnvOrDefault env "REDIS_ADDRESS" "localhost:6379"
  RedisPassword := getEnvOrDefault env "REDIS_PASSWORD" ""
  AccessTokenSecret := getEnvOrDefault env "ACCESS_TOKEN_SECRET" "your-secret-key"
  RefreshTokenSecret := getEnvOrDefault env "REFRESH_TOKEN_SECRET" "your-refresh-token-secret"
  SMTPEmail := getEnvOrDefault env "SMTP_EMAIL" ""
  SMTPPort := getEnvAsInt env "SMTP_PORT" 587
  SMTPHost := getEnvOrDefault env "SMTP_HOST" ""
  SMTPPassword := getEnvOrDefault env "SMTP_PASSWORD" ""
  AppName := getEnvOrDefault env "APP_NAME" "Asset Management System"
  AppEnv := getEnvOrDefault env "APP_ENV" "development"
  FrontendURL := getEnvOrDefault env "FRONTEND_URL" "http://localhost:5173"
  CloudName := getEnvOrDefault env "CLOUDINARY_CLOUD_NAME" "your-cloudinary-cloud-name"
  CloudSecret := getEnvOrDefault env "CLOUDINARY_API_SECRET" "your-cloudinary-api-secret"
  CloudApiKey := getEnvOrDefault env "CLOUDINARY_API_KEY" "your-cloudinary-api-key"
  CloudFolder := getEnvOrDefault env "CLOUDINARY_FOLDER" "asset_management_app"
  AllowedImageTypes := getEnvAsStringSlice env "ALLOWED_IMAGE_TYPES" ["image/jpeg", "image/png"]
  AllowedVideoTypes := getEnvAsStringSlice env "ALLOWED_VIDEO_TYPES" ["video/mp4"]
  AllowedDocumentTypes := getEnvAsStringSlice env "ALLOWED_DOCUMENT_TYPES" ["application/pdf"]
  MaxFileSize := [("images", getEnvAsInt64 env "MAX_IMAGE_SIZE" 2097152),
    ("videos", getEnvAsInt64 env "MAX_VIDEO_SIZE" 104857600),
    ("documents", getEnvAsInt64 env "MAX_DOCUMENT_SIZE" 10485760)]

/-- `LoadConfig` (config.go lines 75-147) as a state transformer on the
global `AppConfig` pointer.  The prior snapshot is a parameter it never
reads: the function assigns a freshly built struct (lines 76-134), then
the three allowed-type slices (lines 136-138) and the per-category size
map (lines 140-144).  The `MAX_FILE_SIZE` read at line 100 lands in a
field that the line-140 assignment overwrites, so it is kept as a dead
binding. -/
def LoadConfig (env : Env) (_prior : Option Config) : Option Config :=
  let _maxFileSizeLine100 := getEnvAsInt64 env "MAX_FILE_SIZE" 12582912
  let c0 : Config :=
    { ServerPort := getEnvOrDefault env "PORT" "8080"
      ServerHost := getEnvOrDefault env "HOST" "localhost"
      GoogleClientID := getEnvOrDefault env "GOOGLE_CLIENT_ID" "your-google-client-id"
      GoogleClientSecret := getEnvOrDefault env "GOOGLE_CLIENT_SECRET" "your-google-client-secret"
      GoogleRedirectURL := getEnvOrDefault env "GOOGLE_REDIRECT_URL" "http://localhost:5005/api/v1/users/google/callback"
      FrontendRedirectURL := getEnvOrDefault env "FRONTEND_REDIRECT_URL" "http://localhost:5173"
      StripeWebhookSecret := getEnvOrDefault env "STRIPE_WEBHOOK_SECRET" "your-stripe-webhook-secret"
      StripeCancelUrlDev := getEnvOrDefault env "STRIPE_CANCEL_URL_DEV" "http://localhost:5173/checkout/cancel"
      StripeSuccessUrlDev := getEnvOrDefault env "STRIPE_SUCCESS_URL_DEV" "http://localhost:5173/checkout/success"
      StripeCancelUrlProd := getEnvOrDefault env "STRIPE_CANCEL_URL_PROD" "https://your-production-url/checkout/cancel"
      StripeSuccessUrlProd := getEnvOrDefault env "STRIPE_SUCCESS_URL_PROD" "https://your-production-url/checkout/success"
      StripeSecretKey := getEnvOrDefault env "STRIPE_SECRET_KEY" "your-stripe-secret-key"
      StripePublishableKey := getEnvOrDefault env "STRIPE_PUBLISHABLE_KEY" "your-stripe-publishable-key"
      CookieDomain := getEnvOrDefault env "COOKIE_DOMAIN" "localhost"
      ApiKeys := getEnvOrDefault env "API_KEY" "your-api-keys"
      RateLimitAttempts := getEnvAsInt env "RATE_LIMIT_ATTEMPTS" 100
      RateLimitDuration := getEnvAsDuration env "RATE_LIMIT_DURATION" "60s"
      TrustedProxies := getEnvAsStringSlice env "TRUSTED_PROXIES" ["localhost"]
      SkippedApiEndpoints := getEnvAsStringSlice env "SKIPPED_API_ENDPOINTS" ["/health"]
      AllowedOrigins := getEnvAsStringSlice env "ALLOWED_ORIGINS" ["http://localhost:3000"]
      DatabaseRootURL := getEnvOrDefault env "DB_ROOT_URL" "your-db-root-url"
      DatabaseName := getEnvOrDefault env "DB_NAME" "your-db-name"
      DatabaseURL := getEnvOrDefault env "DB_URL" "your-db-url"
      RedisAddress := getEnvOrDefault env "REDIS_ADDRESS" "localhost:6379"
      RedisPassword := getEnvOrDefault env "REDIS_PASSWORD" ""
      AccessTokenSecret := getEnvOrDefault env "ACCESS_TOKEN_SECRET" "your-secret-key"
      RefreshTokenSecret := getEnvOrDefault env "REFRESH_TOKEN_SECRET" "your-refresh-token-secret"
      SMTPEmail := getEnvOrDefault env "SMTP_EMAIL" ""
      SMTPPort := getEnvAsInt env "SMTP_PORT" 587
      SMTPHost := getEnvOrDefault env "SMTP_HOST" ""
      SMTPPassword := getEnvOrDefault env "SMTP_PASSWORD" ""
      AppName := getEnvOrDefault env "APP_NAME" "Asset Management System"
      AppEnv := getEnvOrDefault env "APP_ENV" "development"
      FrontendURL := getEnvOrDefault env "FRONTEND_URL" "http://localhost:5173"
      CloudName := getEnvOrDefault env "CLOUDINARY_CLOUD_NAME" "your-cloudinary-cloud-name"
      CloudSecret := getEnvOrDefault env "CLOUDINARY_API_SECRET" "your-cloudinary-api-secret"
      CloudApiKey := getEnvOrDefault env "CLOUDINARY_API_KEY" "your-cloudinary-api-key"
      CloudFolder := getEnvOrDefault env "CLOUDINARY_FOLDER" "asset_management_app"
      AllowedImageTypes := []
      AllowedVideoTypes := []
      AllowedDocumentTypes := []
      MaxFileSize := [] }
  let c1 := { c0 with AllowedImageTypes := getEnvAsStringSlice env "ALLOWED_IMAGE_TYPES" ["image/jpeg", "image/png"] }
  let c2 := { c1 with AllowedVideoTypes := getEnvAsStringSlice env "ALLOWED_VIDEO_TYPES" ["video/mp4"] }
  let c3 := { c2 with AllowedDocumentTypes := getEnvAsStringSlice env "ALLOWED_DOCUMENT_TYPES" ["application/pdf"] }
  let c4 := { c3 with MaxFileSize := [("images", getEnvAsInt64 env "MAX_IMAGE_SIZE" 2097152),
    ("videos", getEnvAsInt64 env "MAX_VIDEO_SIZE" 104857600),
    ("documents", getEnvAsInt64 env "MAX_DOCUMENT_SIZE" 10485760)] }
  some c4

/-- The initial value of the global `AppConfig *Config` pointer (config.go
line 73): nil before `LoadConfig` runs. -/
def initialAppConfig : Option Config := none

/-- `GetServerAddress` (config.go lines 205-207): dereferences
`AppConfig`; a nil pointer (`none`) is the dereference failure. -/
def GetServerAddress : Option Config → Option String
  | none => none
  | some c => some (c.ServerHost ++ ":" ++ c.ServerPort)

/-- `IsProduction` (config.go lines 209-211). -/
def IsProduction : Option Config → Option Bool
  | none => none
  | some c => some (c.AppEnv == "production")

/-- `IsDevelopment` (config.go lines 213-215). -/
def IsDevelopment : Option Config → Option Bool
  | none => none
  | some c => some (c.AppEnv == "development")

/-- The environment with every variable unset. -/
def envEmpty : Env := fun _ => ""

/-- An environment that only sets `APP_ENV` to a value that is neither
"production" nor "development". -/
def envStaging : Env := fun k => if k = "APP_ENV" then "staging" else ""

/-- An environment that only sets `RATE_LIMIT_DURATION` to "2s". -/
def envRate2s : Env := fun k => if k = "RATE_LIMIT_DURATION" then "2s" else ""

/-- An environment that only sets `TRUSTED_PROXIES` to the spec example
"a, b ,,c". -/
def envProxies : Env := fun k => if k = "TRUSTED_PROXIES" then "a, b ,,c" else ""

/-- An environment that only sets `TRUSTED_PROXIES` to " , ,", whose
comma-separated parts all trim to the empty string. -/
def envAllSpaces : Env := fun k => if k = "TRUSTED_PROXIES" then " , ," else ""

/-- An environment that only sets `MAX_IMAGE_SIZE` to "123". -/
def envMaxImage123 : Env := fun k => if k = "MAX_IMAGE_SIZE" then "123" else ""

/-- An environment that only sets `MAX_FILE_SIZE` to "999". -/
def envMaxFile999 : Env := fun k => if k = "MAX_FILE_SIZE" then "999" else ""

/-- An environment that only sets `SMTP_PORT` to a non-numeric string. -/
def envBadInt : Env := fun k => if k = "SMTP_PORT" then "notanumber" else ""

/-- `LoadConfig` installs exactly the closed-form snapshot: the struct
literal followed by the four field assignments equals `loadedConfig`. -/
theorem LoadConfig_eq (env : Env) (p : Option Config) :
    LoadConfig env p = some (loadedConfig env) := rfl

/-- Projection of the environment mode out of the snapshot. -/
theorem loadedConfig_AppEnv (env : Env) :
    (loadedConfig env).AppEnv = getEnvOrDefault env "APP_ENV" "development" := rfl

/-- Projection of the per-category size map out of the snapshot. -/
theorem loadedConfig_MaxFileSize (env : Env) :
    (loadedConfig env).MaxFileSize =
      [("images", getEnvAsInt64 env "MAX_IMAGE_SIZE" 2097152),
       ("videos", getEnvAsInt64 env "MAX_VIDEO_SIZE" 104857600),
       ("documents", getEnvAsInt64 env "MAX_DOCUMENT_SIZE" 10485760)] := rfl

/-- The append-accumulate loop of `getEnvAsStringSlice` is map followed by
filter. -/
theorem foldl_trim_filter (l : List (List Char)) (acc : List String) :
    l.foldl (fun result item =>
        if TrimSpace (String.mk item) ≠ "" then result ++ [TrimSpace (String.mk item)]
        else result) acc
      = acc ++ (l.map (fun item => TrimSpace (String.mk item))).filter (fun t => t ≠ "") := by
  induction l generalizing acc with
  | nil => simp
  | cons x xs ih =>
    simp only [List.foldl_cons]
    rw [ih]
    by_cases h : TrimSpace (String.mk x) = ""
    · simp [h, List.filter_cons]
    · simp [h, List.filter_cons, List.append_assoc]

/-- C8: before initialization the snapshot pointer is nil and each of the
three derived accessors dereferences it, failing; after initialization
each is a pure function of the snapshot, the server address being
host ++ ":" ++ port. -/
theorem C8_accessors_phases :
    GetServerAddress initialAppConfig = none ∧
    IsProduction initialAppConfig = none ∧
    IsDevelopment initialAppConfig = none ∧
    ∀ c : Config,
      GetServerAddress (some c) = some (c.ServerHost ++ ":" ++ c.ServerPort) ∧
      IsProduction (some c) = some (c.AppEnv == "production") ∧
      IsDevelopment (some c) = some (c.AppEnv == "development") :=
  ⟨rfl, rfl, rfl, fun _ => ⟨rfl, rfl, rfl⟩⟩

/-- C7: initialization is total: from any prior state and any environment,
however malformed, it installs the fully populated snapshot and signals no
error (the model has no error outcome, matching the Go signature). -/
theorem C7_LoadConfig_total (env : Env) (prior : Option Config) :
    LoadConfig env prior = some (loadedConfig env) := rfl

/-- C6: re-initialization is insensitive to the prior snapshot: the new
state is determined solely by the current environment, so two runs under
the same environment from different prior states agree. -/
theorem C6_LoadConfig_replaces (env : Env) (p1 p2 : Option Config) :
    LoadConfig env p1 = LoadConfig env p2 ∧
    LoadConfig env p1 = some (loadedConfig env) :=
  ⟨rfl, rfl⟩

/-- An environment that only sets `RATE_LIMIT_DURATION` to a malformed
duration. -/
def envBadDur : Env := fun k => if k = "RATE_LIMIT_DURATION" then "notaduration" else ""

/-- The empty string never parses as an integer. -/
theorem ParseInt64_empty : ParseInt64 "" = none := rfl

/-- C1 as stated is false: an environment mode that is neither
"production" nor "development" (here "staging", loaded from `APP_ENV`)
makes `IsProduction` false yet `IsDevelopment` false as well. -/
theorem C1_counterexample :
    ¬ (∀ c : Config, IsProduction (some c) = some false →
        IsDevelopment (some c) = some true) := by
  intro hclaim
  have h1 : IsProduction (some (loadedConfig envStaging)) = some false := by decide
  have h2 := hclaim (loadedConfig envStaging) h1
  have h3 : IsDevelopment (some (loadedConfig envStaging)) = some false := by decide
  rw [h2] at h3
  exact absurd h3 (by decide)

/-- C1 amended: `IsProduction` is true iff the environment mode equals
"production" exactly, and `IsDevelopment` is true iff it equals
"development" exactly; the unset case defaults to "development", so
`IsDevelopment` is true there. -/
theorem C1_accessors_exact (c : Config) (env : Env) (henv : env "APP_ENV" = "") :
    (IsProduction (some c) = some true ↔ c.AppEnv = "production") ∧
    (IsDevelopment (some c) = some true ↔ c.AppEnv = "development") ∧
    (loadedConfig env).AppEnv = "development" ∧
    IsDevelopment (some (loadedConfig env)) = some true := by
  refine ⟨?_, ?_, ?_, ?_⟩
  · simp [IsProduction]
  · simp [IsDevelopment]
  · rw [loadedConfig_AppEnv]
    simp [getEnvOrDefault, henv]
  · simp [IsDevelopment, loadedConfig_AppEnv, getEnvOrDefault, henv]

/-- C1 witness: the amended statement at the all-unset environment. -/
theorem C1_witness :
    (IsProduction (some (loadedConfig envEmpty)) = some true ↔
      (loadedConfig envEmpty).AppEnv = "production") ∧
    (IsDevelopment (some (loadedConfig envEmpty)) = some true ↔
      (loadedConfig envEmpty).AppEnv = "development") ∧
    (loadedConfig envEmpty).AppEnv = "development" ∧
    IsDevelopment (some (loadedConfig envEmpty)) = some true :=
  C1_accessors_exact (loadedConfig envEmpty) envEmpty rfl

/-- C2: a non-empty string-sequence variable is split on commas, each
element trimmed, empty elements dropped; an unset or empty variable gives
exactly the default, with no merging. -/
theorem C2_string_slice (env : Env) (k : String) (d : List String) :
    (env k ≠ "" → getEnvAsStringSlice env k d =
      ((splitComma (env k).data).map (fun item => TrimSpace (String.mk item))).filter
        (fun t => t ≠ "")) ∧
    (env k = "" → getEnvAsStringSlice env k d = d) := by
  constructor
  · intro h
    simp only [getEnvAsStringSlice]
    rw [if_neg h, foldl_trim_filter, List.nil_append]
  · intro h
    simp [getEnvAsStringSlice, h]

/-- C2 witness: the spec example TRUSTED_PROXIES="a, b ,,c" yields
["a", "b", "c"]. -/
theorem C2_witness :
    getEnvAsStringSlice envProxies "TRUSTED_PROXIES" ["localhost"] = ["a", "b", "c"] := by
  rw [(C2_string_slice envProxies "TRUSTED_PROXIES" ["localhost"]).1 (by decide)]
  decide

/-- C3: a set, parseable duration variable yields its parsed value; an
unset or empty variable yields the parsed default; a malformed value also
yields the parsed default; and the fallback is 0 when the default itself
fails to parse (folded into `getD 0`).  The function is total, so no
error is ever raised. -/
theorem C3_duration (env : Env) (k d : String) :
    (∀ v : Int, env k ≠ "" → ParseDuration (env k) = some v →
      getEnvAsDuration env k d = v) ∧
    (env k = "" → getEnvAsDuration env k d = (ParseDuration d).getD 0) ∧
    (env k ≠ "" → ParseDuration (env k) = none →
      getEnvAsDuration env k d = (ParseDuration d).getD 0) := by
  refine ⟨?_, ?_, ?_⟩
  · intro v h hv
    simp only [getEnvAsDuration]
    rw [if_neg h, hv]
  · intro h
    simp only [getEnvAsDuration]
    rw [if_pos h]
    cases hd : ParseDuration d <;> simp [hd]
  · intro h hv
    simp only [getEnvAsDuration]
    rw [if_neg h, hv]

/-- C3 witness: RATE_LIMIT_DURATION="2s" gives exactly 2 seconds; unset
and malformed both give the 60-second default. -/
theorem C3_witness :
    getEnvAsDuration envRate2s "RATE_LIMIT_DURATION" "60s" = 2000000000 ∧
    getEnvAsDuration envEmpty "RATE_LIMIT_DURATION" "60s" = 60000000000 ∧
    getEnvAsDuration envBadDur "RATE_LIMIT_DURATION" "60s" = 60000000000 :=
  ⟨(C3_duration envRate2s "RATE_LIMIT_DURATION" "60s").1 2000000000 (by decide) (by decide),
   ((C3_duration envEmpty "RATE_LIMIT_DURATION" "60s").2.1 rfl).trans (by decide),
   ((C3_duration envBadDur "RATE_LIMIT_DURATION" "60s").2.2 (by decide) (by decide)).trans
     (by decide)⟩

/-- C4: an integer variable that is unset, empty, or not a base-10
integer of the appropriate width falls back to the default silently, for
both the int and the int64 readers; a malformed value is indistinguishable
from an absent one. -/
theorem C4_int_fallback (env env2 : Env) (k : String) (d d64 : Int) :
    (env k = "" → getEnvAsInt env k d = d ∧ getEnvAsInt64 env k d64 = d64) ∧
    (Atoi (env k) = none → getEnvAsInt env k d = d) ∧
    (ParseInt64 (env k) = none → getEnvAsInt64 env k d64 = d64) ∧
    (ParseInt64 (env k) = none → env2 k = "" →
      getEnvAsInt env k d = getEnvAsInt env2 k d ∧
      getEnvAsInt64 env k d64 = getEnvAsInt64 env2 k d64) := by
  have hInt : Atoi (env k) = none → getEnvAsInt env k d = d := by
    intro h
    by_cases he : env k = ""
    · simp [getEnvAsInt, he]
    · simp only [getEnvAsInt]
      rw [if_pos he, h]
  have hInt64 : ParseInt64 (env k) = none → getEnvAsInt64 env k d64 = d64 := by
    intro h
    by_cases he : env k = ""
    · simp [getEnvAsInt64, he]
    · simp only [getEnvAsInt64]
      rw [if_pos he, h]
  refine ⟨?_, hInt, hInt64, ?_⟩
  · intro h
    exact ⟨by simp [getEnvAsInt, h], by simp [getEnvAsInt64, h]⟩
  · intro h h2
    constructor
    · rw [hInt h]
      simp [getEnvAsInt, h2]
    · rw [hInt64 h]
      simp [getEnvAsInt64, h2]

/-- C4 witness: a non-numeric SMTP_PORT yields the default 587 for both
readers, identically to an unset variable. -/
theorem C4_witness :
    getEnvAsInt envBadInt "SMTP_PORT" 587 = 587 ∧
    getEnvAsInt64 envBadInt "SMTP_PORT" 587 = 587 ∧
    getEnvAsInt envBadInt "SMTP_PORT" 587 = getEnvAsInt envEmpty "SMTP_PORT" 587 :=
  ⟨(C4_int_fallback envBadInt envEmpty "SMTP_PORT" 587 587).2.1 (by decide),
   (C4_int_fallback envBadInt envEmpty "SMTP_PORT" 587 587).2.2.1 (by decide),
   ((C4_int_fallback envBadInt envEmpty "SMTP_PORT" 587 587).2.2.2 (by decide) rfl).1⟩

/-- C5: with the three size variables unset the per-category map is
exactly images to 2097152, videos to 104857600, documents to 10485760;
a valid byte count in one of the variables replaces the corresponding
entry. -/
theorem C5_max_sizes (env : Env) :
    (env "MAX_IMAGE_SIZE" = "" → env "MAX_VIDEO_SIZE" = "" →
      env "MAX_DOCUMENT_SIZE" = "" →
      (loadedConfig env).MaxFileSize =
        [("images", 2097152), ("videos", 104857600), ("documents", 10485760)]) ∧
    (∀ v : Int, ParseInt64 (env "MAX_IMAGE_SIZE") = some v →
      (loadedConfig env).MaxFileSize.lookup "images" = some v) ∧
    (∀ v : Int, ParseInt64 (env "MAX_VIDEO_SIZE") = some v →
      (loadedConfig env).MaxFileSize.lookup "videos" = some v) ∧
    (∀ v : Int, ParseInt64 (env "MAX_DOCUMENT_SIZE") = some v →
      (loadedConfig env).MaxFileSize.lookup "documents" = some v) := by
  refine ⟨?_, ?_, ?_, ?_⟩
  · intro h1 h2 h3
    rw [loadedConfig_MaxFileSize]
    simp [getEnvAsInt64, h1, h2, h3]
  · intro v hv
    have hne : env "MAX_IMAGE_SIZE" ≠ "" := by
      intro he
      rw [he, ParseInt64_empty] at hv
      exact Option.noConfusion hv
    rw [loadedConfig_MaxFileSize]
    simp only [getEnvAsInt64]
    rw [if_pos hne, hv]
    rfl
  · intro v hv
    have hne : env "MAX_VIDEO_SIZE" ≠ "" := by
      intro he
      rw [he, ParseInt64_empty] at hv
      exact Option.noConfusion hv
    rw [loadedConfig_MaxFileSize]
    simp only [getEnvAsInt64]
    rw [if_pos hne, hv]
    rfl
  · intro v hv
    have hne : env "MAX_DOCUMENT_SIZE" ≠ "" := by
      intro he
      rw [he, ParseInt64_empty] at hv
      exact Option.noConfusion hv
    rw [loadedConfig_MaxFileSize]
    simp only [getEnvAsInt64]
    rw [if_pos hne, hv]
    rfl

/-- C5 witness: the defaults at the all-unset environment, and the
override MAX_IMAGE_SIZE="123". -/
theorem C5_witness :
    (loadedConfig envEmpty).MaxFileSize =
      [("images", 2097152), ("videos", 104857600), ("documents", 10485760)] ∧
    (loadedConfig envMaxImage123).MaxFileSize.lookup "images" = some 123 :=
  ⟨(C5_max_sizes envEmpty).1 rfl rfl rfl,
   (C5_max_sizes envMaxImage123).2.1 123 (by decide)⟩

/-- C9: a non-empty string-sequence value all of whose comma-separated
parts trim to empty yields the empty sequence, not the default. -/
theorem C9_all_blank_parts (env : Env) (k : String) (d : List String)
    (h1 : env k ≠ "")
    (h2 : ∀ p ∈ splitComma (env k).data, TrimSpace (String.mk p) = "") :
    getEnvAsStringSlice env k d = [] := by
  simp only [getEnvAsStringSlice]
  rw [if_neg h1, foldl_trim_filter, List.nil_append, List.filter_eq_nil_iff]
  intro a ha
  simp only [List.mem_map] at ha
  obtain ⟨p, hp, rfl⟩ := ha
  simp [h2 p hp]

/-- C9 witness: TRUSTED_PROXIES=" , ," yields the empty sequence. -/
theorem C9_witness :
    getEnvAsStringSlice envAllSpaces "TRUSTED_PROXIES" ["localhost"] = [] :=
  C9_all_blank_parts envAllSpaces "TRUSTED_PROXIES" ["localhost"] (by decide) (by decide)

/-- Snapshots agree whenever the environments agree outside
MAX_FILE_SIZE: no field of the closed-form snapshot reads that
variable. -/
theorem loadedConfig_congr (e1 e2 : Env)
    (h : ∀ k, k ≠ "MAX_FILE_SIZE" → e1 k = e2 k) :
    loadedConfig e1 = loadedConfig e2 := by
  simp only [loadedConfig, getEnvOrDefault, getEnvAsInt, getEnvAsInt64, getEnvAsDuration,
    getEnvAsStringSlice, Atoi]
  rw [h "PORT" (by decide), h "HOST" (by decide), h "GOOGLE_CLIENT_ID" (by decide),
    h "GOOGLE_CLIENT_SECRET" (by decide), h "GOOGLE_REDIRECT_URL" (by decide),
    h "FRONTEND_REDIRECT_URL" (by decide), h "STRIPE_WEBHOOK_SECRET" (by decide),
    h "STRIPE_CANCEL_URL_DEV" (by decide), h "STRIPE_SUCCESS_URL_DEV" (by decide),
    h "STRIPE_CANCEL_URL_PROD" (by decide), h "STRIPE_SUCCESS_URL_PROD" (by decide),
    h "STRIPE_SECRET_KEY" (by decide), h "STRIPE_PUBLISHABLE_KEY" (by decide),
    h "COOKIE_DOMAIN" (by decide), h "API_KEY" (by decide),
    h "RATE_LIMIT_ATTEMPTS" (by decide), h "RATE_LIMIT_DURATION" (by decide),
    h "TRUSTED_PROXIES" (by decide), h "SKIPPED_API_ENDPOINTS" (by decide),
    h "ALLOWED_ORIGINS" (by decide), h "DB_ROOT_URL" (by decide), h "DB_NAME" (by decide),
    h "DB_URL" (by decide), h "REDIS_ADDRESS" (by decide), h "REDIS_PASSWORD" (by decide),
    h "ACCESS_TOKEN_SECRET" (by decide), h "REFRESH_TOKEN_SECRET" (by decide),
    h "SMTP_EMAIL" (by decide), h "SMTP_PORT" (by decide), h "SMTP_HOST" (by decide),
    h "SMTP_PASSWORD" (by decide), h "APP_NAME" (by decide), h "APP_ENV" (by decide),
    h "FRONTEND_URL" (by decide), h "CLOUDINARY_CLOUD_NAME" (by decide),
    h "CLOUDINARY_API_SECRET" (by decide), h "CLOUDINARY_API_KEY" (by decide),
    h "CLOUDINARY_FOLDER" (by decide), h "ALLOWED_IMAGE_TYPES" (by decide),
    h "ALLOWED_VIDEO_TYPES" (by decide), h "ALLOWED_DOCUMENT_TYPES" (by decide),
    h "MAX_IMAGE_SIZE" (by decide), h "MAX_VIDEO_SIZE" (by decide),
    h "MAX_DOCUMENT_SIZE" (by decide)]

/-- C10: MAX_FILE_SIZE has no effect on the installed snapshot: its value
is read at line 100 and unconditionally overwritten at lines 140-144, so
two initialization runs whose environments differ only in MAX_FILE_SIZE
(from any prior states) install identical snapshots. -/
theorem C10_max_file_size_dead (e1 e2 : Env) (p1 p2 : Option Config)
    (h : ∀ k, k ≠ "MAX_FILE_SIZE" → e1 k = e2 k) :
    LoadConfig e1 p1 = LoadConfig e2 p2 := by
  rw [LoadConfig_eq, LoadConfig_eq, loadedConfig_congr e1 e2 h]

/-- C10 witness: MAX_FILE_SIZE="999" loads the same snapshot as the
all-unset environment. -/
theorem C10_witness : LoadConfig envMaxFile999 none = LoadConfig envEmpty none :=
  C10_max_file_size_dead envMaxFile999 envEmpty none none (by
    intro k hk
    simp [envMaxFile999, envEmpty, hk])
